import Mathlib

/-!
Verification of `static/js/camera.js`, the browser-side controller of the
object-detection web app.  The script is embedded shallowly: the DOM state it
mutates becomes the structure `UIState`, each network interaction becomes a
`FetchResult` (transport failure, JSON parse failure, or a parsed JSON body),
and every handler of the script becomes a Lean function from its inputs and
the current `UIState` to its outcome.  Page-level behaviour is the step
function `step` over the events the page can receive.
-/

/-- Parsed JSON values, as produced by `await response.json()`.
`JSON.parse` can yield null, booleans, numbers, strings, arrays and objects;
arrays are irrelevant to this script and numbers are modelled as integers
(the script never inspects a numeric field beyond truthiness). -/
inductive Json where
  | null
  | bool (b : Bool)
  | num (n : Int)
  | str (s : String)
  | obj (fields : List (String × Json))

/-- First-match lookup of a key among object fields. -/
def lookupField : List (String × Json) → String → Option Json
  | [], _ => none
  | (k, v) :: rest, key => if k = key then some v else lookupField rest key

/-- JS property access `data.key` on a parsed JSON value: it throws a
TypeError when the value is `null`, and yields `undefined` (here `none`) on
primitives and on objects that lack the key. -/
def jsGet : Json → String → Except Unit (Option Json)
  | .null, _ => .error ()
  | .obj fs, key => .ok (lookupField fs key)
  | _, _ => .ok none

/-- JS truthiness of a possibly-`undefined` value, as used by
`data.running ? ... : ...`. -/
def truthy : Option Json → Bool
  | none => false
  | some .null => false
  | some (.bool b) => b
  | some (.num n) => decide (n ≠ 0)
  | some (.str s) => decide (s ≠ "")
  | some (.obj _) => true

/-- JS strict equality `v === "error"` on a possibly-`undefined` value. -/
def isErrorSentinel : Option Json → Bool
  | some (.str s) => decide (s = "error")
  | _ => false

/-- The `message` of `new Error(x)`: the empty string when `x` is
`undefined`, otherwise the JS string conversion of `x`. -/
def errorMessageOf : Option Json → String
  | none => ""
  | some .null => "null"
  | some (.bool b) => if b then "true" else "false"
  | some (.num n) => toString n
  | some (.str s) => s
  | some (.obj _) => "[object Object]"

/-- Outcome of `await fetch(url)` followed by `await response.json()`:
the fetch may reject (transport error), the body may fail to parse as JSON
(a SyntaxError), or a JSON value is produced.  Failures carry the thrown
error message. -/
inductive FetchResult where
  | transportError (msg : String)
  | parseError (msg : String)
  | body (data : Json)

/-- The DOM state touched by the script: the status label text and colour,
the `disabled` flags of the two buttons, the error banner text and
visibility, the stream element source, and the pending one-shot retry delay
installed by the stream error handler (`none` when no retry is pending). -/
structure UIState where
  statusText : String
  statusColor : String
  startDisabled : Bool
  stopDisabled : Bool
  errorText : String
  errorVisible : Bool
  videoSrc : String
  pendingRetryDelay : Option Nat
  deriving DecidableEq

/-- The stream source string `"/video_feed?" + Date.now()`. -/
def videoFeedSrc (now : Nat) : String := "/video_feed?" ++ Nat.repr now

/-- Body of `initVideoFeed`: set the stream source to the video endpoint with
the current timestamp.  The `onerror` handler it installs is modelled by the
`PageEvent.feedError` transition below. -/
def initVideoFeed (now : Nat) (s : UIState) : UIState :=
  { s with videoSrc := videoFeedSrc now }

/-- `checkStatus`: on a parsed body it reads `data.running` (property access
on a null body throws and is caught like any other failure) and updates the
status label and the two buttons; every caught failure is only logged and
leaves the DOM untouched. -/
def checkStatus (r : FetchResult) (s : UIState) : UIState :=
  match r with
  | .transportError _ => s
  | .parseError _ => s
  | .body data =>
    match jsGet data "running" with
    | .error _ => s
    | .ok v =>
      let running := truthy v
      { s with
        statusText := "Status: " ++ (if running then "Running" else "Not Running")
        statusColor := if running then "green" else "red"
        startDisabled := running
        stopDisabled := !running }

/-- Result of running one click handler: the DOM state it leaves behind,
whether it re-ran `initVideoFeed`, and how many `checkStatus()` calls it
issued (those calls are asynchronous; their effect arrives as a later
`PageEvent.poll`). -/
structure HandlerOutcome where
  ui : UIState
  reloadedStream : Bool
  statusChecksIssued : Nat
  deriving DecidableEq

/-- The shared catch block of the start handler:
`errorDiv.textContent = error.message; errorDiv.style.display = "block"`. -/
def startCatch (msg : String) (s : UIState) : HandlerOutcome :=
  { ui := { s with errorText := msg, errorVisible := true }
    reloadedStream := false
    statusChecksIssued := 0 }

/-- The start button click handler.  `tyMsg` is the runtime-defined message
of the TypeError thrown when property access hits a null body; `now` is the
`Date.now()` value read when `initVideoFeed` runs. -/
def startHandler (tyMsg : String) (now : Nat) (r : FetchResult) (s : UIState) :
    HandlerOutcome :=
  match r with
  | .transportError m => startCatch m s
  | .parseError m => startCatch m s
  | .body data =>
    match jsGet data "status" with
    | .error _ => startCatch tyMsg s
    | .ok v =>
      if isErrorSentinel v then
        match jsGet data "message" with
        | .error _ => startCatch tyMsg s
        | .ok mv => startCatch (errorMessageOf mv) s
      else
        { ui := initVideoFeed now s
          reloadedStream := true
          statusChecksIssued := 1 }

/-- The stop button click handler: awaits and discards the parsed body and
then re-checks status; any caught failure (transport error or a body that
fails to parse) shows the fixed banner text instead. -/
def stopHandler (r : FetchResult) (s : UIState) : HandlerOutcome :=
  match r with
  | .transportError _ =>
      { ui := { s with errorText := "Failed to stop detection", errorVisible := true }
        reloadedStream := false
        statusChecksIssued := 0 }
  | .parseError _ =>
      { ui := { s with errorText := "Failed to stop detection", errorVisible := true }
        reloadedStream := false
        statusChecksIssued := 0 }
  | .body _ =>
      { ui := s, reloadedStream := false, statusChecksIssued := 1 }

/-- The constant delay passed to `setTimeout(initVideoFeed, 2000)` by the
stream error handler. -/
def videoRetryDelayMs : Nat := 2000

/-- The events the page reacts to: a status poll resolving, a click on start
or stop together with the resolution of its request, the stream element
firing its error handler, the pending retry timer firing, and the stream
loading successfully. -/
inductive PageEvent where
  | poll (r : FetchResult)
  | startClick (tyMsg : String) (now : Nat) (r : FetchResult)
  | stopClick (r : FetchResult)
  | feedError
  | feedRetryFires (now : Nat)
  | feedLoadOk

/-- Page-level step function: how each event transforms the DOM state. -/
def step : PageEvent → UIState → UIState
  | .poll r, s => checkStatus r s
  | .startClick tyMsg now r, s => (startHandler tyMsg now r s).ui
  | .stopClick r, s => (stopHandler r s).ui
  | .feedError, s =>
      { s with errorText := "Video feed error. Retrying..."
               errorVisible := true
               pendingRetryDelay := some videoRetryDelayMs }
  | .feedRetryFires now, s => { initVideoFeed now s with pendingRetryDelay := none }
  | .feedLoadOk, s => s

/-- A concrete DOM state used to instantiate universally quantified
theorems: the page as it first renders. -/
def s0 : UIState :=
  { statusText := ""
    statusColor := ""
    startDisabled := false
    stopDisabled := false
    errorText := ""
    errorVisible := false
    videoSrc := ""
    pendingRetryDelay := none }

/-!
Injectivity of the decimal rendering used for the cache-busting timestamp:
`Nat.repr` renders via `Nat.toDigitsCore`; we show distinct timestamps give
distinct `"/video_feed?<ts>"` strings.
-/

/-- The digit list `Nat.repr` is built from. -/
def repDigits (n : Nat) : List Char := Nat.toDigitsCore 10 (n + 1) n []

theorem toDigitsCore_accum (fuel : Nat) : ∀ (n : Nat) (ds : List Char),
    Nat.toDigitsCore 10 fuel n ds = Nat.toDigitsCore 10 fuel n [] ++ ds := by
  induction fuel with
  | zero => intro n ds; simp [Nat.toDigitsCore]
  | succ fuel ih =>
      intro n ds
      simp only [Nat.toDigitsCore]
      by_cases h : n / 10 = 0
      · simp [h]
      · simp only [if_neg h]
        rw [ih (n / 10) (Nat.digitChar (n % 10) :: ds),
          ih (n / 10) [Nat.digitChar (n % 10)]]
        simp

theorem toDigitsCore_fuel (n : Nat) : ∀ (f₁ f₂ : Nat), n < f₁ → n < f₂ →
    Nat.toDigitsCore 10 f₁ n [] = Nat.toDigitsCore 10 f₂ n [] := by
  induction n using Nat.strong_induction_on with
  | _ n ih =>
      intro f₁ f₂ h₁ h₂
      match f₁, f₂ with
      | g₁ + 1, g₂ + 1 =>
        simp only [Nat.toDigitsCore]
        by_cases h : n / 10 = 0
        · simp [h]
        · simp only [if_neg h]
          have hn : 0 < n := by
            rcases Nat.eq_zero_or_pos n with h0 | h0
            · exact absurd (by simp [h0]) h
            · exact h0
          have hd : n / 10 < n := Nat.div_lt_self hn (by norm_num)
          rw [toDigitsCore_accum g₁, toDigitsCore_accum g₂,
            ih (n / 10) hd g₁ g₂ (by omega) (by omega)]

theorem repDigits_unfold (n : Nat) :
    repDigits n = if n / 10 = 0 then [Nat.digitChar (n % 10)]
      else repDigits (n / 10) ++ [Nat.digitChar (n % 10)] := by
  by_cases h : n / 10 = 0
  · simp only [repDigits, Nat.toDigitsCore, if_pos h]
  · have hn : 0 < n := by omega
    have hd : n / 10 < n := Nat.div_lt_self hn (by norm_num)
    rw [if_neg h, repDigits]
    simp only [Nat.toDigitsCore, if_neg h]
    rw [toDigitsCore_accum n,
      toDigitsCore_fuel (n / 10) n (n / 10 + 1) hd (by omega)]
    rfl

theorem digitChar_inj_lt : ∀ a < 10, ∀ b < 10,
    Nat.digitChar a = Nat.digitChar b → a = b := by decide

theorem repDigits_ne_nil (n : Nat) : repDigits n ≠ [] := by
  rw [repDigits_unfold]
  by_cases h : n / 10 = 0 <;> simp [h]

theorem repDigits_injective : Function.Injective repDigits := by
  intro a b
  induction a using Nat.strong_induction_on generalizing b with
  | _ a ih =>
      intro h
      rw [repDigits_unfold a, repDigits_unfold b] at h
      by_cases ha : a / 10 = 0 <;> by_cases hb : b / 10 = 0
      · simp only [if_pos ha, if_pos hb, List.cons.injEq, and_true] at h
        have := digitChar_inj_lt (a % 10) (Nat.mod_lt _ (by norm_num))
          (b % 10) (Nat.mod_lt _ (by norm_num)) h
        omega
      · exfalso
        rw [if_pos ha, if_neg hb] at h
        have hl := congrArg List.length h
        simp only [List.length_cons, List.length_append, List.length_nil] at hl
        exact repDigits_ne_nil (b / 10) (List.length_eq_zero.mp (by omega))
      · exfalso
        rw [if_neg ha, if_pos hb] at h
        have hl := congrArg List.length h
        simp only [List.length_cons, List.length_append, List.length_nil] at hl
        exact repDigits_ne_nil (a / 10) (List.length_eq_zero.mp (by omega))
      · rw [if_neg ha, if_neg hb] at h
        have hparts := List.append_inj' h rfl
        have hdiv : a / 10 = b / 10 :=
          ih (a / 10) (Nat.div_lt_self (by omega) (by norm_num)) hparts.1
        have hmod : a % 10 = b % 10 :=
          digitChar_inj_lt (a % 10) (Nat.mod_lt _ (by norm_num))
            (b % 10) (Nat.mod_lt _ (by norm_num))
            (by simpa using hparts.2)
        omega

theorem natRepr_data (n : Nat) : (Nat.repr n).data = repDigits n := rfl

theorem videoFeedSrc_injective : Function.Injective videoFeedSrc := by
  intro a b h
  have h2 := congrArg String.data h
  simp only [videoFeedSrc, String.data_append] at h2
  have h3 := List.append_cancel_left h2
  rw [natRepr_data, natRepr_data] at h3
  exact repDigits_injective h3

/-- A state showing "Status: Running", as left by a successful poll. -/
def sRun : UIState :=
  { statusText := "Status: Running"
    statusColor := "green"
    startDisabled := true
    stopDisabled := false
    errorText := ""
    errorVisible := false
    videoSrc := "/video_feed?0"
    pendingRetryDelay := none }

/-- C1: for every successful status poll, a `running` field of `true` yields
status text "Status: Running" in green with start disabled and stop enabled,
and `false` yields "Status: Not Running" in red with start enabled and stop
disabled; moreover after any successful poll exactly one of the two controls
is enabled. -/
theorem checkStatus_matches_running_flag :
    (∀ (s : UIState) (data : Json) (b : Bool),
      jsGet data "running" = .ok (some (.bool b)) →
      (checkStatus (.body data) s).statusText
          = (if b then "Status: Running" else "Status: Not Running") ∧
      (checkStatus (.body data) s).statusColor = (if b then "green" else "red") ∧
      (checkStatus (.body data) s).startDisabled = b ∧
      (checkStatus (.body data) s).stopDisabled = !b) ∧
    (∀ (s : UIState) (data : Json) (v : Option Json),
      jsGet data "running" = .ok v →
      (checkStatus (.body data) s).startDisabled
        ≠ (checkStatus (.body data) s).stopDisabled) := by
  constructor
  · intro s data b h
    simp only [checkStatus, h, truthy]
    cases b <;> simp
  · intro s data v h
    simp only [checkStatus, h]
    cases truthy v <;> simp

/-- Witness for C1: a concrete running-true poll on the initial state. -/
theorem checkStatus_matches_running_flag_witness :
    jsGet (.obj [("running", .bool true)]) "running" = .ok (some (.bool true)) ∧
    (checkStatus (.body (.obj [("running", .bool true)])) s0).statusText
        = "Status: Running" ∧
    (checkStatus (.body (.obj [("running", .bool true)])) s0).startDisabled
      ≠ (checkStatus (.body (.obj [("running", .bool true)])) s0).stopDisabled := by
  refine ⟨rfl, ?_, ?_⟩
  · have h1 := (checkStatus_matches_running_flag.1 s0 (.obj [("running", .bool true)])
      true rfl).1
    simpa using h1
  · exact checkStatus_matches_running_flag.2 s0 (.obj [("running", .bool true)])
      (some (.bool true)) rfl

/-- C2: a start activation whose response is a JSON object with status
"error" and message a string X shows the error banner with text exactly X,
does not touch the stream source, and issues no status re-check. -/
theorem startHandler_error_sentinel (tyMsg : String) (now : Nat) (s : UIState)
    (data : Json) (X : String)
    (hs : jsGet data "status" = .ok (some (.str "error")))
    (hm : jsGet data "message" = .ok (some (.str X))) :
    (startHandler tyMsg now (.body data) s).ui.errorText = X ∧
    (startHandler tyMsg now (.body data) s).ui.errorVisible = true ∧
    (startHandler tyMsg now (.body data) s).ui.videoSrc = s.videoSrc ∧
    (startHandler tyMsg now (.body data) s).reloadedStream = false ∧
    (startHandler tyMsg now (.body data) s).statusChecksIssued = 0 := by
  simp [startHandler, hs, hm, isErrorSentinel, startCatch, errorMessageOf]

/-- Witness for C2: a concrete error response with message "boom". -/
theorem startHandler_error_sentinel_witness :
    jsGet (.obj [("status", .str "error"), ("message", .str "boom")]) "status"
        = .ok (some (.str "error")) ∧
    jsGet (.obj [("status", .str "error"), ("message", .str "boom")]) "message"
        = .ok (some (.str "boom")) ∧
    (startHandler "TypeError" 7
        (.body (.obj [("status", .str "error"), ("message", .str "boom")]))
        s0).ui.errorText = "boom" :=
  ⟨rfl, rfl, (startHandler_error_sentinel "TypeError" 7 s0
    (.obj [("status", .str "error"), ("message", .str "boom")]) "boom" rfl rfl).1⟩

/-- C3: a start activation whose response is the object with status "ok"
reloads the stream source with the fresh timestamp (so the source string
changes whenever the timestamp is fresh) and issues exactly one immediate
status check. -/
theorem startHandler_ok_reloads_and_rechecks (tyMsg : String) (now t : Nat)
    (s : UIState) (hsrc : s.videoSrc = videoFeedSrc t) (hfresh : t ≠ now) :
    (startHandler tyMsg now (.body (.obj [("status", .str "ok")])) s).reloadedStream
        = true ∧
    (startHandler tyMsg now (.body (.obj [("status", .str "ok")])) s).ui.videoSrc
        = videoFeedSrc now ∧
    (startHandler tyMsg now (.body (.obj [("status", .str "ok")])) s).ui.videoSrc
      ≠ s.videoSrc ∧
    (startHandler tyMsg now (.body (.obj [("status", .str "ok")])) s).statusChecksIssued
        = 1 := by
  refine ⟨rfl, rfl, ?_, rfl⟩
  rw [hsrc]
  show videoFeedSrc now ≠ videoFeedSrc t
  intro hc
  exact hfresh (videoFeedSrc_injective hc).symm

/-- Witness for C3: a start succeeding at time 2 over a feed stamped 1. -/
theorem startHandler_ok_reloads_and_rechecks_witness :
    ({ s0 with videoSrc := videoFeedSrc 1 } : UIState).videoSrc = videoFeedSrc 1 ∧
    (1 : Nat) ≠ 2 ∧
    (startHandler "TypeError" 2 (.body (.obj [("status", .str "ok")]))
        { s0 with videoSrc := videoFeedSrc 1 }).ui.videoSrc
      ≠ ({ s0 with videoSrc := videoFeedSrc 1 } : UIState).videoSrc :=
  ⟨rfl, by decide,
    (startHandler_ok_reloads_and_rechecks "TypeError" 2 1
      { s0 with videoSrc := videoFeedSrc 1 } rfl (by decide)).2.2.1⟩

/-- C4 counterexample: a stop response that resolves but whose body is not
JSON issues no status re-check, against "exactly one status re-check ...
regardless of the content of the stop response body". -/
theorem stopHandler_parse_failure_counterexample :
    (stopHandler (.parseError "Unexpected token") s0).statusChecksIssued ≠ 1 := by
  decide

/-- C4 amended: a stop activation issues exactly one status re-check whenever
the response body parses as JSON, whatever JSON value it is; when the body
fails to parse, or the request fails, the catch path runs and no re-check is
issued. -/
theorem stopHandler_recheck_amended :
    (∀ (data : Json) (s : UIState),
      (stopHandler (.body data) s).statusChecksIssued = 1) ∧
    (∀ (m : String) (s : UIState),
      (stopHandler (.transportError m) s).statusChecksIssued = 0) ∧
    (∀ (m : String) (s : UIState),
      (stopHandler (.parseError m) s).statusChecksIssued = 0) :=
  ⟨fun _ _ => rfl, fun _ _ => rfl, fun _ _ => rfl⟩

/-- C5 counterexample: a status body that is a JSON object missing the
`running` field is not handled by the catch path: unlike a transport error,
which leaves the state alone, it rewrites the status display to
"Status: Not Running". -/
theorem checkStatus_missing_field_counterexample :
    checkStatus (.body (.obj [("foo", .num 1)])) sRun
        ≠ checkStatus (.transportError "Failed to fetch") sRun ∧
    checkStatus (.transportError "Failed to fetch") sRun = sRun ∧
    (checkStatus (.body (.obj [("foo", .num 1)])) sRun).statusText
        = "Status: Not Running" := by
  refine ⟨?_, rfl, rfl⟩
  decide

/-- C5 amended: a body that fails to parse as JSON is treated identically to
a transport error by the same catch path; a JSON object missing the
`running` field is not — it takes the success path and is displayed as not
running — while a JSON null body does reach the catch path, through the
TypeError its property access throws. -/
theorem checkStatus_malformed_amended :
    (∀ (m m' : String) (s : UIState),
      checkStatus (.parseError m) s = checkStatus (.transportError m') s) ∧
    (∀ (fields : List (String × Json)) (s : UIState),
      lookupField fields "running" = none →
      (checkStatus (.body (.obj fields)) s).statusText = "Status: Not Running" ∧
      (checkStatus (.body (.obj fields)) s).startDisabled = false ∧
      (checkStatus (.body (.obj fields)) s).stopDisabled = true) ∧
    (∀ (s : UIState), checkStatus (.body .null) s = s) := by
  refine ⟨fun _ _ _ => rfl, ?_, fun _ => rfl⟩
  intro fields s h
  simp [checkStatus, jsGet, h, truthy]

/-- Witness for C5 amended: a concrete object without `running`. -/
theorem checkStatus_malformed_amended_witness :
    lookupField [("foo", Json.num 1)] "running" = none ∧
    (checkStatus (.body (.obj [("foo", .num 1)])) s0).statusText
        = "Status: Not Running" :=
  ⟨rfl, (checkStatus_malformed_amended.2.1 [("foo", Json.num 1)] s0 rfl).1⟩

/-- C6: a failed poll (the fetch rejects or the body fails to parse) leaves
the whole DOM state exactly as it was: status text, colour, both buttons and
the error banner included. -/
theorem checkStatus_failure_no_ui_change :
    (∀ (m : String) (s : UIState), checkStatus (.transportError m) s = s) ∧
    (∀ (m : String) (s : UIState), checkStatus (.parseError m) s = s) :=
  ⟨fun _ _ => rfl, fun _ _ => rfl⟩

/-- Helper: a poll never touches the pending retry timer. -/
theorem checkStatus_pending (r : FetchResult) (s : UIState) :
    (checkStatus r s).pendingRetryDelay = s.pendingRetryDelay := by
  cases r with
  | transportError m => rfl
  | parseError m => rfl
  | body data =>
      cases h : jsGet data "running" with
      | error e => simp [checkStatus, h]
      | ok v => simp [checkStatus, h]

/-- Helper: a poll never touches the banner visibility. -/
theorem checkStatus_errorVisible (r : FetchResult) (s : UIState) :
    (checkStatus r s).errorVisible = s.errorVisible := by
  cases r with
  | transportError m => rfl
  | parseError m => rfl
  | body data =>
      cases h : jsGet data "running" with
      | error e => simp [checkStatus, h]
      | ok v => simp [checkStatus, h]

/-- Helper: the start handler never touches the pending retry timer. -/
theorem startHandler_pending (tyMsg : String) (now : Nat) (r : FetchResult)
    (s : UIState) :
    (startHandler tyMsg now r s).ui.pendingRetryDelay = s.pendingRetryDelay := by
  cases r with
  | transportError m => rfl
  | parseError m => rfl
  | body data =>
      cases h : jsGet data "status" with
      | error e => simp [startHandler, h, startCatch]
      | ok v =>
          by_cases hv : isErrorSentinel v = true
          · cases hm : jsGet data "message" with
            | error e => simp [startHandler, h, hv, hm, startCatch]
            | ok mv => simp [startHandler, h, hv, hm, startCatch]
          · simp [startHandler, h, hv, initVideoFeed]

/-- Helper: the start handler never hides a visible banner. -/
theorem startHandler_errorVisible (tyMsg : String) (now : Nat) (r : FetchResult)
    (s : UIState) (hvis : s.errorVisible = true) :
    (startHandler tyMsg now r s).ui.errorVisible = true := by
  cases r with
  | transportError m => rfl
  | parseError m => rfl
  | body data =>
      cases h : jsGet data "status" with
      | error e => simp [startHandler, h, startCatch]
      | ok v =>
          by_cases hv : isErrorSentinel v = true
          · cases hm : jsGet data "message" with
            | error e => simp [startHandler, h, hv, hm, startCatch]
            | ok mv => simp [startHandler, h, hv, hm, startCatch]
          · simp [startHandler, h, hv, initVideoFeed, hvis]

/-- Helper: the stop handler never touches the pending retry timer. -/
theorem stopHandler_pending (r : FetchResult) (s : UIState) :
    (stopHandler r s).ui.pendingRetryDelay = s.pendingRetryDelay := by
  cases r <;> rfl

/-- Helper: the stop handler never hides a visible banner. -/
theorem stopHandler_errorVisible (r : FetchResult) (s : UIState)
    (hvis : s.errorVisible = true) :
    (stopHandler r s).ui.errorVisible = true := by
  cases r with
  | transportError m => rfl
  | parseError m => rfl
  | body data => exact hvis

/-- C7: every failed stop activation (transport error or unparseable body)
shows the fixed text "Failed to stop detection" in the banner and makes it
visible, independent of the message of the error that was thrown. -/
theorem stopHandler_failure_fixed_text :
    (∀ (m : String) (s : UIState),
      (stopHandler (.transportError m) s).ui.errorText = "Failed to stop detection" ∧
      (stopHandler (.transportError m) s).ui.errorVisible = true) ∧
    (∀ (m : String) (s : UIState),
      (stopHandler (.parseError m) s).ui.errorText = "Failed to stop detection" ∧
      (stopHandler (.parseError m) s).ui.errorVisible = true) :=
  ⟨fun _ _ => ⟨rfl, rfl⟩, fun _ _ => ⟨rfl, rfl⟩⟩

/-- C8: a stream load error immediately sets the banner text to
"Video feed error. Retrying..." and shows the banner, scheduling exactly one
pending retry with the constant 2000 ms delay; a firing retry consumes the
pending timer and re-runs `initVideoFeed`, after which a new error again
schedules the same constant delay — and no event of the page ever schedules
a retry with any other delay, so the chain repeats at 2000 ms until a load
succeeds. -/
theorem feedError_retry_discipline :
    videoRetryDelayMs = 2000 ∧
    (∀ s : UIState,
      (step .feedError s).errorText = "Video feed error. Retrying..." ∧
      (step .feedError s).errorVisible = true ∧
      (step .feedError s).pendingRetryDelay = some videoRetryDelayMs) ∧
    (∀ (s : UIState) (now : Nat),
      (step (.feedRetryFires now) s).pendingRetryDelay = none ∧
      (step (.feedRetryFires now) s).videoSrc = videoFeedSrc now ∧
      (step .feedError (step (.feedRetryFires now) s)).pendingRetryDelay
          = some videoRetryDelayMs) ∧
    (∀ (e : PageEvent) (s : UIState),
      (step e s).pendingRetryDelay = s.pendingRetryDelay ∨
      (step e s).pendingRetryDelay = none ∨
      (step e s).pendingRetryDelay = some videoRetryDelayMs) := by
  refine ⟨rfl, fun s => ⟨rfl, rfl, rfl⟩, fun s now => ⟨rfl, rfl, rfl⟩, ?_⟩
  intro e s
  cases e with
  | poll r => exact .inl (checkStatus_pending r s)
  | startClick tyMsg now r => exact .inl (startHandler_pending tyMsg now r s)
  | stopClick r => exact .inl (stopHandler_pending r s)
  | feedError => exact .inr (.inr rfl)
  | feedRetryFires now => exact .inr (.inl rfl)
  | feedLoadOk => exact .inl rfl

/-- C9 counterexample: a response that parses to JSON null carries no status
field at all, yet the start handler takes the error branch — the property
access throws a TypeError — showing the banner instead of reloading the
feed and re-checking status. -/
theorem startHandler_null_counterexample :
    (startHandler "TypeError: null has no properties" 7 (.body .null) s0).reloadedStream
        = false ∧
    (startHandler "TypeError: null has no properties" 7 (.body .null) s0).statusChecksIssued
        = 0 ∧
    (startHandler "TypeError: null has no properties" 7 (.body .null) s0).ui.errorVisible
        = true :=
  ⟨rfl, rfl, rfl⟩

/-- C9 amended: the start handler treats every parsed JSON response on which
property access does not throw — every value other than JSON null — whose
status field is not exactly the string "error" as success, reloading the
feed and issuing one immediate status check; the error branch is taken only
when status is exactly "error", when the body is JSON null, or when the
request or parse itself throws. -/
theorem startHandler_success_amended (tyMsg : String) (now : Nat) (s : UIState)
    (data : Json) (v : Option Json)
    (hv : jsGet data "status" = .ok v) (hne : isErrorSentinel v = false) :
    (startHandler tyMsg now (.body data) s).reloadedStream = true ∧
    (startHandler tyMsg now (.body data) s).statusChecksIssued = 1 ∧
    (startHandler tyMsg now (.body data) s).ui.videoSrc = videoFeedSrc now := by
  simp [startHandler, hv, hne, initVideoFeed]

/-- Witness for C9 amended: an object with no status field at all. -/
theorem startHandler_success_amended_witness :
    jsGet (.obj [("foo", .num 1)]) "status" = .ok none ∧
    isErrorSentinel none = false ∧
    (startHandler "TypeError" 9 (.body (.obj [("foo", .num 1)])) s0).reloadedStream
        = true :=
  ⟨rfl, rfl, (startHandler_success_amended "TypeError" 9 s0
    (.obj [("foo", .num 1)]) none rfl rfl).1⟩

/-- A state with the banner visible and showing the feed error text. -/
def sBanner : UIState :=
  { sRun with errorText := "Video feed error. Retrying...", errorVisible := true }

/-- C10 counterexample: with the banner visible and its text non-empty, a
start activation answered by the object with status "error" and no message
field overwrites the banner text with the empty string — an operation of
the program does clear the banner text (the banner stays visible). -/
theorem errorBanner_text_cleared_counterexample :
    sBanner.errorVisible = true ∧
    sBanner.errorText ≠ "" ∧
    (step (.startClick "TypeError" 5 (.body (.obj [("status", .str "error")]))) sBanner).errorText
        = "" ∧
    (step (.startClick "TypeError" 5 (.body (.obj [("status", .str "error")]))) sBanner).errorVisible
        = true := by
  refine ⟨rfl, ?_, rfl, rfl⟩
  decide

/-- C10 amended: banner visibility is monotone — once any operation has made
the banner visible, no event of the page ever hides it again; its text,
however, can be overwritten by later failures, even with the empty string
when a start error response carries no message field. -/
theorem errorBanner_visibility_monotone (e : PageEvent) (s : UIState)
    (hvis : s.errorVisible = true) : (step e s).errorVisible = true := by
  cases e with
  | poll r => rw [step, checkStatus_errorVisible]; exact hvis
  | startClick tyMsg now r => exact startHandler_errorVisible tyMsg now r s hvis
  | stopClick r => exact stopHandler_errorVisible r s hvis
  | feedError => rfl
  | feedRetryFires now => exact hvis
  | feedLoadOk => exact hvis

/-- Witness for C10 amended: a successful poll over a visible banner. -/
theorem errorBanner_visibility_monotone_witness :
    sBanner.errorVisible = true ∧
    (step (.poll (.body (.obj [("running", .bool true)]))) sBanner).errorVisible = true :=
  ⟨rfl, errorBanner_visibility_monotone
    (.poll (.body (.obj [("running", .bool true)]))) sBanner rfl⟩
